import Mathlib

/-!
Verification of the asynchronous order-processing event pipeline.

The definitions below are a shallow embedding of the pipeline code:
the deduplication utility (src/lib/deduplication.ts), the signature
verifier (src/lib/qstash-webhook.ts), the checkout transaction handler
and POST route of the commands webhook
(src/app/api/webhooks/commands/route.ts), the orders-service webhook
(src/services/orders-service/app/api/webhook/route.ts), the
notifications webhook (src/app/api/webhooks/notifications/route.ts),
and the legacy Kafka typed consumer with its dead-letter queue path
(src/services/shared/consumer.ts extended variant, configured by the
legacy orders service with enableDLQ).

Modelling conventions: asynchronous calls are embedded as pure state
transitions; a promise that can reject is an Except value; the Redis
client and the database are explicit state records with fault-injection
flags standing for the external failures a call site can observe;
randomUUID is a deterministic counter-indexed supply; console logging
is an explicit list of strings where a claim depends on it. Outbound
publish calls are recorded as trace actions (payloads are elided except
where a claim inspects them); post-commit publishes are modelled as
succeeding, since no claim concerns their own failure. The external
Upstash Receiver is modelled as accepting exactly the requests whose
signature is valid for the raw body, yielding the body parsed as the
event type, per the declared contract of verifyQStashSignature.
-/

namespace Pipeline

/-- One ordered line item of a checkout command payload
(services/shared/types.ts, OrderItem). Prices and quantities are
integers; no claim depends on fractional amounts. -/
structure CheckoutItem where
  productId : String
  variationId : Option String
  quantity : Int
  price : Int
  deriving Repr, DecidableEq

/-- Checkout command payload (services/shared/types.ts,
CheckoutCommandPayload). -/
structure CheckoutPayload where
  userId : String
  customerName : String
  customerEmail : String
  customerAddress : String
  items : List CheckoutItem
  totalAmount : Int
  paymentId : String
  deriving Repr, DecidableEq

/-- Event envelope as consumed by the webhook routes
(services/shared/types.ts, BaseEvent). Fields not inspected by any
claim (timestamp, version, source) are elided. -/
structure Envelope where
  eventId : String
  eventType : String
  correlationId : Option String
  payload : CheckoutPayload
  deriving Repr, DecidableEq

/-- Order row as inserted by the checkout transaction
(lib/schema.ts, orders table). -/
structure OrderRow where
  id : String
  userId : String
  customerName : String
  customerEmail : String
  customerAddress : String
  totalAmount : Int
  status : String
  deriving Repr, DecidableEq

/-- Order line item row (lib/schema.ts, orderItems table). -/
structure OrderItemRow where
  id : String
  orderId : String
  productId : String
  variationId : Option String
  quantity : Int
  price : Int
  deriving Repr, DecidableEq

/-- Relational store state touched by the checkout transaction:
order rows, order item rows, and the stock counters of the products
and productVariations tables, as association lists from row id to
stock. -/
structure DBState where
  orders : List OrderRow
  orderItems : List OrderItemRow
  productStock : List (String × Int)
  variationStock : List (String × Int)
  deriving Repr, DecidableEq

/-- Embedding of the SQL statement
UPDATE t SET stock = stock - qty WHERE id = key. -/
def updateStockSub (rows : List (String × Int)) (key : String) (qty : Int) :
    List (String × Int) :=
  rows.map (fun r => if r.1 = key then (r.1, r.2 - qty) else r)

/-- Embedding of SELECT stock FROM products WHERE id = key with the
source coalescing product?.stock ?? 0. -/
def selectStock (rows : List (String × Int)) (key : String) : Int :=
  match rows.find? (fun r => r.1 = key) with
  | some r => r.2
  | none => 0

/-- Deterministic stand-in for randomUUID: the n-th fresh identifier. -/
def freshId (n : Nat) : String :=
  "uuid-" ++ toString n

-- ### Idempotency store (src/lib/deduplication.ts)

/-- Redis-backed deduplication store state. The seen list holds the
keys that currently exist; available is the fault-injection flag for
the Redis connection (false means every Redis call rejects). -/
structure DedupStore where
  seen : List String
  available : Bool
  deriving Repr, DecidableEq

/-- Key layout of the deduplication records:
the DEDUP KEY prefix string of deduplication.ts applied to an event
id. -/
def dedupKey (eventId : String) : String :=
  "webhook:dedup:" ++ eventId

/-- Raw redis.exists call: rejects when the store is unreachable,
otherwise returns 1 when the key exists and 0 otherwise. -/
def redisExists (st : DedupStore) (key : String) : Except String Nat :=
  if st.available then .ok (if st.seen.contains key then 1 else 0)
  else .error "redis unreachable"

/-- Raw redis.setex call: rejects when the store is unreachable,
otherwise records the key. The TTL bounds retention in real time and
is not otherwise observable in this state model. -/
def redisSetex (st : DedupStore) (key : String) (_ttl : Nat) :
    Except String DedupStore :=
  if st.available then .ok { st with seen := key :: st.seen }
  else .error "redis unreachable"

/-- Default TTL of deduplication records (DEDUP TTL SECONDS in
deduplication.ts). -/
def DEDUP_TTL_SECONDS : Nat := 3600

/-- Embedding of isEventProcessed: the try/catch around redis.exists
returns false on a store failure so processing is never blocked. -/
def isEventProcessed (st : DedupStore) (eventId : String) : Bool :=
  match redisExists st (dedupKey eventId) with
  | .ok n => n == 1
  | .error _ => false

/-- Embedding of markEventProcessed: the try/catch around redis.setex
swallows a store failure, leaving the store unchanged, and returns
normally either way. -/
def markEventProcessed (st : DedupStore) (eventId : String) (ttl : Nat) :
    DedupStore :=
  match redisSetex st (dedupKey eventId) ttl with
  | .ok st2 => st2
  | .error _ => st

/-- Embedding of processWithDeduplication. The processor argument is
the outcome of the wrapped business logic. The returned pair mirrors
the source result record: the Bool is the processed flag and the
Option carries the result value, absent for a duplicate
short-circuit. A processor rejection is rethrown and no record is
created. -/
def processWithDeduplication {α : Type} (st : DedupStore) (eventId : String)
    (processor : Except String α) :
    Except String (Bool × Option α) × DedupStore :=
  if isEventProcessed st eventId then
    (.ok (false, none), st)
  else
    match processor with
    | .ok r => (.ok (true, some r), markEventProcessed st eventId DEDUP_TTL_SECONDS)
    | .error e => (.error e, st)

-- ### Signature verifier (src/lib/qstash-webhook.ts)

/-- Signing keys configuration read from the environment
(lib/qstash.ts, signingKeys). A value of none stands for an unset
environment variable. -/
structure SigningKeys where
  currentSigningKey : Option String
  nextSigningKey : Option String
  deriving Repr, DecidableEq

/-- JavaScript falsiness of an optional string environment variable:
unset or empty. -/
def strFalsy : Option String → Bool
  | none => true
  | some s => s.isEmpty

/-- Condition under which verifyQStashSignature treats the signing
keys as not configured. -/
def keysUnconfigured (k : SigningKeys) : Bool :=
  strFalsy k.currentSigningKey || strFalsy k.nextSigningKey

/-- Inbound webhook request as seen by a consumer: the optional
upstash-signature header, the parse result of the raw body (none for
a body that is not valid JSON), and the external verdict of the
Upstash receiver on the signature over the raw body bytes. -/
structure WebhookRequest where
  signatureHeader : Option String
  parsedBody : Option Envelope
  signatureValid : Bool
  deriving Repr, DecidableEq

/-- Log line emitted when verification is skipped because the signing
keys are not configured. -/
def skipWarnLog : String :=
  "[QStash] Signing keys not configured - skipping verification (DEV mode)"

/-- Embedding of verifyQStashSignature. Returns the verified event or
the message of the thrown Error, together with the console log lines
the call emits. With unconfigured keys it logs the skip warning, then
returns the parsed body unverified only when NODE ENV is development
and otherwise throws. With configured keys it requires the header and
the receiver verdict; a rejected body is rethrown as the invalid
webhook signature error. -/
def verifyQStashSignature (keys : SigningKeys) (nodeEnv : String)
    (req : WebhookRequest) : Except String Envelope × List String :=
  if keysUnconfigured keys then
    if nodeEnv = "development" then
      match req.parsedBody with
      | some e => (.ok e, [skipWarnLog])
      | none => (.error "Unexpected end of JSON input", [skipWarnLog])
    else
      (.error "QStash signing keys not configured", [skipWarnLog])
  else
    match req.signatureHeader with
    | none => (.error "Missing upstash-signature header", [])
    | some _ =>
      if req.signatureValid then
        match req.parsedBody with
        | some e => (.ok e, [])
        | none => (.error "Invalid webhook signature",
            ["[QStash] Signature verification failed:"])
      else
        (.error "Invalid webhook signature",
          ["[QStash] Signature verification failed:"])

-- ### Error classification in the consumer catch blocks

/-- JavaScript String.prototype.includes on the literal substring
used by every consumer catch block: true when the signature string
occurs contiguously inside the message. -/
def containsSignature (msg : String) : Bool :=
  (msg.toList.tails).any (fun t => "signature".toList.isPrefixOf t)

/-- Status code computed by the catch block of the commands,
notifications, inventory and analytics webhook POST handlers for a
thrown Error: 401 when the message contains the signature substring,
otherwise 500 to trigger a QStash retry. -/
def catchStatus (msg : String) : Nat :=
  if containsSignature msg then 401 else 500

-- ### Checkout transaction handler (commands webhook, orders-service
-- ### webhook and legacy Kafka orders service share this logic)

/-- Outbound publish kinds recorded in the execution trace. The
stock-updated publish carries the fields a claim inspects; the
dead-letter publish of the legacy Kafka consumer carries the original
topic, event type, original event, error message and retry counter of
the DeadLetterPayload. -/
inductive PublishedKind where
  | stockUpdated (productId : String) (variationId : Option String)
      (previousStock newStock : Int)
  | orderCreated
  | notificationEmail
  | analyticsAudit
  | analyticsDlq (originalTopic originalEventType : String)
      (originalEvent : Envelope) (errMsg : String) (retryCount : Nat)
  deriving Repr, DecidableEq

/-- Observable action of a handler run: an outbound publish call being
issued, or the database transaction committing or rolling back. -/
inductive Action where
  | publish (k : PublishedKind)
  | txCommit
  | txRollback
  deriving Repr, DecidableEq

/-- Fault injection for the database statements inside the checkout
transaction: whether the order insert rejects, whether the order items
insert rejects, and the zero-based index of the line item whose
product stock decrement rejects, if any. -/
structure TxFault where
  orderInsertFails : Bool
  itemsInsertFails : Bool
  decrementFailsAt : Option Nat
  deriving Repr, DecidableEq

/-- Fault specification under which every statement succeeds. -/
def noFault : TxFault :=
  { orderInsertFails := false, itemsInsertFails := false,
    decrementFailsAt := none }

/-- Embedding of the order items insert values: one row per checkout
item referencing the new order, with a fresh id each
(handleCheckoutCommand step 2). -/
def itemRows (gen : Nat) (orderId : String) : List CheckoutItem → List OrderItemRow
  | [] => []
  | it :: rest =>
    { id := freshId gen, orderId := orderId, productId := it.productId,
      variationId := it.variationId, quantity := it.quantity,
      price := it.price } :: itemRows (gen + 1) orderId rest

/-- Embedding of the per-item loop of step 3 of handleCheckoutCommand,
starting at item index i. Each iteration reads the current product
stock, decrements the variation stock when a variation is present,
decrements the product stock, and issues the fire-and-forget
inventory stock-updated publish. The returned actions are the
publishes issued before the loop finished or a decrement rejected;
publishes already issued are not undone by a later failure. -/
def decrementLoop (fault : TxFault) (i : Nat) :
    List CheckoutItem → DBState → Except String DBState × List Action
  | [], db => (.ok db, [])
  | it :: rest, db =>
    let previousStock := selectStock db.productStock it.productId
    let db1 :=
      match it.variationId with
      | some v => { db with variationStock := updateStockSub db.variationStock v it.quantity }
      | none => db
    if fault.decrementFailsAt = some i then
      (.error "stock decrement failed", [])
    else
      let db2 := { db1 with productStock := updateStockSub db1.productStock it.productId it.quantity }
      let pub := Action.publish (PublishedKind.stockUpdated it.productId it.variationId
        previousStock (previousStock - it.quantity))
      let rec2 := decrementLoop fault (i + 1) rest db2
      (rec2.1, pub :: rec2.2)

/-- Order row inserted by step 1 of the checkout transaction. -/
def txNewOrder (gen : Nat) (ev : Envelope) : OrderRow :=
  { id := freshId gen, userId := ev.payload.userId,
    customerName := ev.payload.customerName,
    customerEmail := ev.payload.customerEmail,
    customerAddress := ev.payload.customerAddress,
    totalAmount := ev.payload.totalAmount, status := "PENDING" }

/-- Database state after the order insert of step 1. -/
def txAfterOrderInsert (gen : Nat) (db : DBState) (ev : Envelope) : DBState :=
  { db with orders := db.orders ++ [txNewOrder gen ev] }

/-- Database state after the order items insert of step 2. -/
def txInsertedDB (gen : Nat) (db : DBState) (ev : Envelope) : DBState :=
  { txAfterOrderInsert gen db ev with
    orderItems := db.orderItems ++ itemRows (gen + 1) (txNewOrder gen ev).id ev.payload.items }

/-- Embedding of the transaction body of handleCheckoutCommand:
insert the order row with status PENDING, insert the order item rows,
then run the decrement loop. Returns the callback outcome, the state
as mutated so far, and the publish actions issued inside the
transaction. -/
def txBody (fault : TxFault) (gen : Nat) (db : DBState) (ev : Envelope) :
    Except String OrderRow × DBState × List Action :=
  if fault.orderInsertFails then (.error "order insert failed", db, [])
  else if fault.itemsInsertFails then
    (.error "order items insert failed", txAfterOrderInsert gen db ev, [])
  else
    match decrementLoop fault 0 ev.payload.items (txInsertedDB gen db ev) with
    | (.ok db3, pubs) => (.ok (txNewOrder gen ev), db3, pubs)
    | (.error e, pubs) => (.error e, txInsertedDB gen db ev, pubs)

/-- Result of one handler invocation: the promise outcome, the
database state afterwards, and the trace of publishes and transaction
boundary actions in program order. -/
structure HandlerResult where
  result : Except String Unit
  db : DBState
  trace : List Action
  deriving Repr

/-- Embedding of handleCheckoutCommand: run the transaction body; a
rejection rolls the database back to its pre-transaction state and
rethrows, while on success the transaction commits and the
order-created, email-notification and audit-log publishes are awaited
after the commit, in that order. -/
def handleCheckoutCommand (fault : TxFault) (gen : Nat) (db : DBState)
    (ev : Envelope) : HandlerResult :=
  match txBody fault gen db ev with
  | (.ok _, db2, pubs) =>
    { result := .ok (), db := db2,
      trace := pubs ++ [Action.txCommit,
        Action.publish PublishedKind.orderCreated,
        Action.publish PublishedKind.notificationEmail,
        Action.publish PublishedKind.analyticsAudit] }
  | (.error e, _, pubs) =>
    { result := .error e, db := db, trace := pubs ++ [Action.txRollback] }

-- ### Consumer POST handlers

/-- Result of one webhook POST invocation: the HTTP status code of the
response, the database state afterwards, and the action trace. -/
structure PostResult where
  status : Nat
  db : DBState
  trace : List Action
  deriving Repr

/-- Embedding of the POST handler of the commands webhook
(src/app/api/webhooks/commands/route.ts): verify the signature, then
switch on the event type; command.checkout runs the checkout handler
and every other type is answered 400. A thrown error is classified by
the catch block via the signature substring check. The idempotency
store is never consulted on this route. -/
def commandsPOST (keys : SigningKeys) (nodeEnv : String) (fault : TxFault)
    (db : DBState) (req : WebhookRequest) : PostResult :=
  match (verifyQStashSignature keys nodeEnv req).1 with
  | .error msg => { status := catchStatus msg, db := db, trace := [] }
  | .ok ev =>
    if ev.eventType = "command.checkout" then
      let h := handleCheckoutCommand fault 0 db ev
      match h.result with
      | .ok _ => { status := 200, db := h.db, trace := h.trace }
      | .error msg => { status := catchStatus msg, db := h.db, trace := h.trace }
    else
      { status := 400, db := db, trace := [] }

/-- Embedding of the POST handler of the orders-service webhook
(src/services/orders-service/app/api/webhook/route.ts): a missing
header, a receiver rejection or a false receiver verdict each answer
401 directly; then the raw body is parsed, and a parse failure lands
in the outer catch which answers 500; command.checkout runs the same
checkout handler with any rejection answered 500 by the outer catch;
order-prefixed and unknown event types are acknowledged 200. -/
def ordersServicePOST (fault : TxFault) (db : DBState) (req : WebhookRequest) :
    PostResult :=
  match req.signatureHeader with
  | none => { status := 401, db := db, trace := [] }
  | some _ =>
    if req.signatureValid then
      match req.parsedBody with
      | none => { status := 500, db := db, trace := [] }
      | some ev =>
        if ev.eventType = "command.checkout" then
          let h := handleCheckoutCommand fault 0 db ev
          match h.result with
          | .ok _ => { status := 200, db := h.db, trace := h.trace }
          | .error _ => { status := 500, db := h.db, trace := h.trace }
        else if ev.eventType.startsWith "order." then
          { status := 200, db := db, trace := [] }
        else
          { status := 200, db := db, trace := [] }
    else
      { status := 401, db := db, trace := [] }

/-- Embedding of the POST handler of the notifications webhook
(src/app/api/webhooks/notifications/route.ts): verify the signature,
then run processWithDeduplication around the dispatch; the
notification.email handler outcome is the emailOutcome parameter, and
any other event type throws the unknown event type error inside the
processor so the outer catch answers it through the signature
substring classification. Returns the status and the idempotency
store afterwards. -/
def notificationsPOST (keys : SigningKeys) (nodeEnv : String)
    (st : DedupStore) (req : WebhookRequest)
    (emailOutcome : Except String Unit) : Nat × DedupStore :=
  match (verifyQStashSignature keys nodeEnv req).1 with
  | .error msg => (catchStatus msg, st)
  | .ok ev =>
    let processor : Except String Unit :=
      if ev.eventType = "notification.email" then emailOutcome
      else .error ("Unknown event type: " ++ ev.eventType)
    match processWithDeduplication st ev.eventId processor with
    | (.ok _, st2) => (200, st2)
    | (.error msg, st2) => (catchStatus msg, st2)

-- ### Legacy Kafka typed consumer with dead-letter path
-- ### (services/shared/consumer.ts extended variant)

/-- Configuration slice of createTypedConsumer that the claims
inspect: the event type filter and the dead-letter toggle. The legacy
Kafka orders service subscribes with eventTypes command.checkout and
enableDLQ true. -/
structure ConsumerConfigModel where
  eventTypes : List String
  enableDLQ : Bool
  deriving Repr, DecidableEq

/-- Embedding of sendToDLQ: publish exactly one analytics.dlq event to
the analytics topic whose DeadLetterPayload carries the original
topic, the original event type, the original event intact, the error
message, and the retry counter. -/
def sendToDLQ (originalTopic originalEventType : String)
    (originalEvent : Envelope) (errMsg : String) (retryCount : Nat) : Action :=
  Action.publish (PublishedKind.analyticsDlq originalTopic originalEventType
    originalEvent errMsg retryCount)

/-- Embedding of the eachMessage callback of createTypedConsumer as
configured by the legacy Kafka orders service: filter on the event
type header, parse the message, run handleCheckoutCommand, and on a
handler rejection send the message to the dead-letter queue once when
enableDLQ is set (the consumer then acknowledges the message rather
than rethrowing). -/
def typedConsumerEachMessage (cfg : ConsumerConfigModel) (fault : TxFault)
    (db : DBState) (topic : String) (headerEventType : Option String)
    (msgEvent : Option Envelope) : DBState × List Action :=
  match headerEventType with
  | none => (db, [])
  | some et =>
    if cfg.eventTypes.contains et then
      match msgEvent with
      | none => (db, [])
      | some ev =>
        let h := handleCheckoutCommand fault 0 db ev
        match h.result with
        | .ok _ => (h.db, h.trace)
        | .error msg =>
          if cfg.enableDLQ then
            (h.db, h.trace ++ [sendToDLQ topic et ev msg 0])
          else
            (h.db, h.trace)
    else
      (db, [])

-- ### Trace observations

/-- Number of publish actions issued strictly before the first commit
of a trace, in program order. -/
def publishCountBeforeCommit : List Action → Nat
  | [] => 0
  | Action.txCommit :: _ => 0
  | Action.publish _ :: rest => 1 + publishCountBeforeCommit rest
  | Action.txRollback :: rest => publishCountBeforeCommit rest

/-- Number of dead-letter publishes in a trace. -/
def countDlqPublishes : List Action → Nat
  | [] => 0
  | Action.publish (PublishedKind.analyticsDlq _ _ _ _ _) :: rest =>
    1 + countDlqPublishes rest
  | _ :: rest => countDlqPublishes rest

-- ### Concrete sample inputs

/-- Configured signing key pair. -/
def goodKeys : SigningKeys :=
  { currentSigningKey := some "sig-current", nextSigningKey := some "sig-next" }

/-- Unconfigured signing keys (both environment variables unset). -/
def noKeys : SigningKeys :=
  { currentSigningKey := none, nextSigningKey := none }

/-- Sample line item for product A, quantity 2. -/
def itemA : CheckoutItem :=
  { productId := "prod-A", variationId := none, quantity := 2, price := 10 }

/-- Sample line item for product B, quantity 1. -/
def itemB : CheckoutItem :=
  { productId := "prod-B", variationId := none, quantity := 1, price := 25 }

/-- Sample line item for product C, quantity 3. -/
def itemC : CheckoutItem :=
  { productId := "prod-C", variationId := none, quantity := 3, price := 5 }

/-- Sample two-item checkout payload. -/
def samplePayload : CheckoutPayload :=
  { userId := "user-1", customerName := "Jane Doe",
    customerEmail := "jane@example.com", customerAddress := "1 Main St",
    items := [itemA, itemB], totalAmount := 45, paymentId := "pay-1" }

/-- Sample checkout command envelope. -/
def sampleEvent : Envelope :=
  { eventId := "evt-1", eventType := "command.checkout",
    correlationId := some "corr-1", payload := samplePayload }

/-- Sample three-item checkout command envelope. -/
def threeItemEvent : Envelope :=
  { eventId := "evt-3", eventType := "command.checkout",
    correlationId := some "corr-3",
    payload := { samplePayload with items := [itemA, itemB, itemC] } }

/-- Initial database: no orders, stock 10 for each sample product. -/
def sampleDB : DBState :=
  { orders := [], orderItems := [],
    productStock := [("prod-A", 10), ("prod-B", 10), ("prod-C", 10)],
    variationStock := [] }

/-- Validly signed request carrying the sample checkout command. -/
def sampleReq : WebhookRequest :=
  { signatureHeader := some "sig", parsedBody := some sampleEvent,
    signatureValid := true }

/-- Validly signed request carrying the three-item checkout command. -/
def threeItemReq : WebhookRequest :=
  { signatureHeader := some "sig", parsedBody := some threeItemEvent,
    signatureValid := true }

/-- Fault specification failing the stock decrement of the second line
item (index 1). -/
def faultSecondItem : TxFault :=
  { orderInsertFails := false, itemsInsertFails := false,
    decrementFailsAt := some 1 }

/-- Fault specification failing the order insert of step 1. -/
def faultOrderInsert : TxFault :=
  { orderInsertFails := true, itemsInsertFails := false,
    decrementFailsAt := none }

/-- Fault specification failing the order items insert of step 2. -/
def faultItemsInsert : TxFault :=
  { orderInsertFails := false, itemsInsertFails := true,
    decrementFailsAt := none }

/-- Empty and reachable idempotency store. -/
def emptyStore : DedupStore :=
  { seen := [], available := true }

/-- Consumer configuration of the legacy Kafka orders service
(services/orders/index.ts): checkout commands with the dead-letter
queue enabled. -/
def legacyOrdersConfig : ConsumerConfigModel :=
  { eventTypes := ["command.checkout"], enableDLQ := true }

-- ### Helper lemmas

/-- The decrement loop rejects whenever the injected decrement fault
index falls inside the range of remaining items. -/
theorem decrementLoop_fault_in_range (fault : TxFault) (j : Nat) :
    ∀ (items : List CheckoutItem) (i : Nat) (db : DBState),
      fault.decrementFailsAt = some j → i ≤ j → j < i + items.length →
      (decrementLoop fault i items db).1 = Except.error "stock decrement failed" := by
  intro items
  induction items with
  | nil =>
    intro i db _ hij hlt
    simp only [List.length_nil, Nat.add_zero] at hlt
    omega
  | cons it rest ih =>
    intro i db hf hij hlt
    by_cases hji : j = i
    · subst hji
      simp [decrementLoop, hf]
    · have hc : ¬ fault.decrementFailsAt = some i := by
        rw [hf]; simp; omega
      simp only [decrementLoop, hc, if_false, if_neg hc]
      exact ih (i + 1) _ hf (by omega)
        (by simp only [List.length_cons] at hlt; omega)

/-- Every action issued by the decrement loop is an inventory
stock-updated publish. -/
theorem decrementLoop_trace_shape (fault : TxFault) :
    ∀ (items : List CheckoutItem) (i : Nat) (db : DBState) (a : Action),
      a ∈ (decrementLoop fault i items db).2 →
      ∃ p v ps ns, a = Action.publish (PublishedKind.stockUpdated p v ps ns) := by
  intro items
  induction items with
  | nil =>
    intro i db a ha
    simp [decrementLoop] at ha
  | cons it rest ih =>
    intro i db a ha
    by_cases hc : fault.decrementFailsAt = some i
    · simp [decrementLoop, hc] at ha
    · simp only [decrementLoop, if_neg hc, List.mem_cons] at ha
      rcases ha with h | h
      · exact ⟨_, _, _, _, h⟩
      · exact ih (i + 1) _ a h

/-- Every publish issued inside the transaction body is an inventory
stock-updated publish. -/
theorem txBody_trace_shape (fault : TxFault) (gen : Nat) (db : DBState)
    (ev : Envelope) (a : Action) (ha : a ∈ (txBody fault gen db ev).2.2) :
    ∃ p v ps ns, a = Action.publish (PublishedKind.stockUpdated p v ps ns) := by
  unfold txBody at ha
  by_cases h1 : fault.orderInsertFails
  · simp [h1] at ha
  · by_cases h2 : fault.itemsInsertFails
    · simp [h1, h2] at ha
    · simp only [h1, h2, if_false, Bool.false_eq_true] at ha
      split at ha
      · next heq =>
        exact decrementLoop_trace_shape fault _ 0 (txInsertedDB gen db ev) a
          (by rw [heq]; exact ha)
      · next heq =>
        exact decrementLoop_trace_shape fault _ 0 (txInsertedDB gen db ev) a
          (by rw [heq]; exact ha)

/-- The transaction body rejects with the decrement error when the
injected fault index falls inside the item list and the inserts
succeed. -/
theorem txBody_decrement_fault (fault : TxFault) (gen : Nat) (db : DBState)
    (ev : Envelope) (j : Nat)
    (h1 : fault.orderInsertFails = false) (h2 : fault.itemsInsertFails = false)
    (h3 : fault.decrementFailsAt = some j) (h4 : j < ev.payload.items.length) :
    (txBody fault gen db ev).1 = Except.error "stock decrement failed" := by
  have hfi := decrementLoop_fault_in_range fault j ev.payload.items 0
    (txInsertedDB gen db ev) h3 (Nat.zero_le j) (by omega)
  unfold txBody
  simp only [h1, h2, if_false, Bool.false_eq_true]
  split
  · next db3 pubs heq =>
    rw [heq] at hfi
    simp at hfi
  · next e pubs heq =>
    rw [heq] at hfi
    simpa using hfi

/-- The checkout handler on an in-range decrement fault rethrows the
decrement error and leaves the database in its pre-transaction
state. -/
theorem handleCheckoutCommand_decrement_fault (fault : TxFault) (gen : Nat)
    (db : DBState) (ev : Envelope) (j : Nat)
    (h1 : fault.orderInsertFails = false) (h2 : fault.itemsInsertFails = false)
    (h3 : fault.decrementFailsAt = some j) (h4 : j < ev.payload.items.length) :
    (handleCheckoutCommand fault gen db ev).result = Except.error "stock decrement failed" ∧
    (handleCheckoutCommand fault gen db ev).db = db := by
  have htx := txBody_decrement_fault fault gen db ev j h1 h2 h3 h4
  unfold handleCheckoutCommand
  split
  · next o db2 pubs heq => rw [heq] at htx; simp at htx
  · next e db2 pubs heq =>
    rw [heq] at htx
    simp only [Except.error.injEq] at htx
    simp [htx]

/-- The commands POST route answers an in-range decrement fault with
the retry-worthy 500 status and an unchanged database. -/
theorem commandsPOST_decrement_fault (keys : SigningKeys) (nodeEnv : String)
    (req : WebhookRequest) (ev : Envelope) (db : DBState) (fault : TxFault) (j : Nat)
    (hver : (verifyQStashSignature keys nodeEnv req).1 = Except.ok ev)
    (htype : ev.eventType = "command.checkout")
    (h1 : fault.orderInsertFails = false) (h2 : fault.itemsInsertFails = false)
    (h3 : fault.decrementFailsAt = some j) (h4 : j < ev.payload.items.length) :
    (commandsPOST keys nodeEnv fault db req).status = 500 ∧
    (commandsPOST keys nodeEnv fault db req).db = db := by
  obtain ⟨hres, hdb⟩ := handleCheckoutCommand_decrement_fault fault 0 db ev j h1 h2 h3 h4
  unfold commandsPOST
  rw [hver]
  simp only [htype, eq_self_iff_true, if_true, hres, hdb]
  exact ⟨by decide, trivial⟩

/-- The transaction body rejects with the order insert error when the
order insert fault is set. -/
theorem txBody_order_insert_fault (fault : TxFault) (gen : Nat) (db : DBState)
    (ev : Envelope) (h : fault.orderInsertFails = true) :
    (txBody fault gen db ev).1 = Except.error "order insert failed" := by
  unfold txBody
  simp [h]

/-- The transaction body rejects with the items insert error when the
order insert succeeds and the items insert fault is set. -/
theorem txBody_items_insert_fault (fault : TxFault) (gen : Nat) (db : DBState)
    (ev : Envelope) (h1 : fault.orderInsertFails = false)
    (h2 : fault.itemsInsertFails = true) :
    (txBody fault gen db ev).1 = Except.error "order items insert failed" := by
  unfold txBody
  simp [h1, h2]

/-- Whenever the transaction body rejects, the checkout handler
rethrows the same error and the database is rolled back to its
pre-transaction state. -/
theorem handleCheckoutCommand_error_of_txBody (fault : TxFault) (gen : Nat)
    (db : DBState) (ev : Envelope) (msg : String)
    (h : (txBody fault gen db ev).1 = Except.error msg) :
    (handleCheckoutCommand fault gen db ev).result = Except.error msg ∧
    (handleCheckoutCommand fault gen db ev).db = db := by
  unfold handleCheckoutCommand
  split
  · next o db2 pubs heq =>
    rw [heq] at h
    exact absurd h (by simp)
  · next e db2 pubs heq =>
    rw [heq] at h
    simp only [Except.error.injEq] at h
    simp [h]

/-- Whenever the transaction body rejects with a message free of the
signature substring, the commands POST route answers the retry-worthy
500 and the database is unchanged. -/
theorem commandsPOST_error_of_txBody (keys : SigningKeys) (nodeEnv : String)
    (req : WebhookRequest) (ev : Envelope) (db : DBState) (fault : TxFault)
    (msg : String)
    (hver : (verifyQStashSignature keys nodeEnv req).1 = Except.ok ev)
    (htype : ev.eventType = "command.checkout")
    (h : (txBody fault 0 db ev).1 = Except.error msg)
    (hcs : containsSignature msg = false) :
    (commandsPOST keys nodeEnv fault db req).status = 500 ∧
    (commandsPOST keys nodeEnv fault db req).db = db := by
  obtain ⟨hres, hdb⟩ := handleCheckoutCommand_error_of_txBody fault 0 db ev msg h
  unfold commandsPOST
  rw [hver]
  simp only [htype, eq_self_iff_true, if_true, hres, hdb]
  exact ⟨by simp [catchStatus, hcs], trivial⟩

/-- Appending traces adds their dead-letter publish counts. -/
theorem countDlqPublishes_append (l1 l2 : List Action) :
    countDlqPublishes (l1 ++ l2) = countDlqPublishes l1 + countDlqPublishes l2 := by
  induction l1 with
  | nil => simp [countDlqPublishes]
  | cons a rest ih =>
    cases a with
    | publish k => cases k <;> (simp [countDlqPublishes, ih]; try omega)
    | txCommit => simp [countDlqPublishes, ih]
    | txRollback => simp [countDlqPublishes, ih]

/-- A trace of stock-updated publishes and transaction boundary
markers contains no dead-letter publish. -/
theorem countDlqPublishes_eq_zero (l : List Action)
    (h : ∀ a ∈ l,
      (∃ p v ps ns, a = Action.publish (PublishedKind.stockUpdated p v ps ns)) ∨
      a = Action.txRollback ∨ a = Action.txCommit) :
    countDlqPublishes l = 0 := by
  induction l with
  | nil => rfl
  | cons a rest ih =>
    have hrest := ih (fun b hb => h b (List.mem_cons_of_mem a hb))
    rcases h a (List.mem_cons_self a rest) with ⟨p, v, ps, ns, rfl⟩ | rfl | rfl <;>
      simp [countDlqPublishes, hrest]

/-- Unreachable idempotency store that has already recorded the
sample event id. -/
def downStore : DedupStore :=
  { seen := [dedupKey "evt-1"], available := false }

/-- Reachable idempotency store that has already recorded the sample
event id. -/
def seenStore : DedupStore :=
  { seen := [dedupKey "evt-1"], available := true }

-- ### Claim theorems

/-- C1: the claim states that the Commands Consumer checks the
Idempotency Store before invoking the checkout handler, so that
redelivering the identical envelope after the first success leaves
exactly one Order row and exactly one stock decrement per line item.
The commands POST route never consults the store: delivering the same
sample envelope twice produces two successful 200 responses, two
Order rows, and a second stock decrement per line item (product A
from 10 to 6 instead of 8, product B from 10 to 8 instead of 9),
evaluating the embedded route at the failing input. -/
theorem C1_commands_redelivery_creates_second_order :
    (commandsPOST goodKeys "production" noFault sampleDB sampleReq).status = 200 ∧
    (commandsPOST goodKeys "production" noFault sampleDB sampleReq).db.orders.length = 1 ∧
    (commandsPOST goodKeys "production" noFault
        (commandsPOST goodKeys "production" noFault sampleDB sampleReq).db
        sampleReq).status = 200 ∧
    (commandsPOST goodKeys "production" noFault
        (commandsPOST goodKeys "production" noFault sampleDB sampleReq).db
        sampleReq).db.orders.length = 2 ∧
    selectStock (commandsPOST goodKeys "production" noFault
        (commandsPOST goodKeys "production" noFault sampleDB sampleReq).db
        sampleReq).db.productStock "prod-A" = 6 ∧
    selectStock (commandsPOST goodKeys "production" noFault
        (commandsPOST goodKeys "production" noFault sampleDB sampleReq).db
        sampleReq).db.productStock "prod-B" = 8 := by
  decide

/-- C2: any failing step inside the order transaction — the order
insert of step 1, the order items insert of step 2, or a stock
decrement of step 3 at an in-range item index — makes the checkout
handler rethrow the error of the failing step, leaves the database
exactly as before the delivery (zero new Order rows, zero stock
mutations), and the commands consumer answers the retry-worthy 500
status. -/
theorem C2_tx_failure_rolls_back_and_signals_retry
    (keys : SigningKeys) (nodeEnv : String) (req : WebhookRequest) (ev : Envelope)
    (db : DBState) (fault : TxFault)
    (hver : (verifyQStashSignature keys nodeEnv req).1 = Except.ok ev)
    (htype : ev.eventType = "command.checkout")
    (hfail : fault.orderInsertFails = true ∨
      (fault.orderInsertFails = false ∧ fault.itemsInsertFails = true) ∨
      (fault.orderInsertFails = false ∧ fault.itemsInsertFails = false ∧
        ∃ j, fault.decrementFailsAt = some j ∧ j < ev.payload.items.length)) :
    (∃ msg, (handleCheckoutCommand fault 0 db ev).result = Except.error msg) ∧
    (handleCheckoutCommand fault 0 db ev).db = db ∧
    (commandsPOST keys nodeEnv fault db req).status = 500 ∧
    (commandsPOST keys nodeEnv fault db req).db = db := by
  have hstep : ∃ msg, (txBody fault 0 db ev).1 = Except.error msg ∧
      containsSignature msg = false := by
    rcases hfail with h1 | ⟨h1, h2⟩ | ⟨h1, h2, j, h3, h4⟩
    · exact ⟨_, txBody_order_insert_fault fault 0 db ev h1, by decide⟩
    · exact ⟨_, txBody_items_insert_fault fault 0 db ev h1 h2, by decide⟩
    · exact ⟨_, txBody_decrement_fault fault 0 db ev j h1 h2 h3 h4, by decide⟩
  obtain ⟨msg, htx, hcs⟩ := hstep
  obtain ⟨hres, hdb⟩ := handleCheckoutCommand_error_of_txBody fault 0 db ev msg htx
  obtain ⟨hst, hdb2⟩ := commandsPOST_error_of_txBody keys nodeEnv req ev db fault msg
    hver htype htx hcs
  exact ⟨⟨msg, hres⟩, hdb, hst, hdb2⟩

/-- Witness for C2: each of the three transaction steps is forced to
fail in turn on the three-item checkout command; in every case the
database equals its initial state afterwards and the consumer answers
500. -/
theorem C2_witness :
    ((∃ msg, (handleCheckoutCommand faultOrderInsert 0 sampleDB threeItemEvent).result =
        Except.error msg) ∧
     (handleCheckoutCommand faultOrderInsert 0 sampleDB threeItemEvent).db = sampleDB ∧
     (commandsPOST goodKeys "production" faultOrderInsert sampleDB threeItemReq).status = 500 ∧
     (commandsPOST goodKeys "production" faultOrderInsert sampleDB threeItemReq).db = sampleDB) ∧
    ((∃ msg, (handleCheckoutCommand faultItemsInsert 0 sampleDB threeItemEvent).result =
        Except.error msg) ∧
     (handleCheckoutCommand faultItemsInsert 0 sampleDB threeItemEvent).db = sampleDB ∧
     (commandsPOST goodKeys "production" faultItemsInsert sampleDB threeItemReq).status = 500 ∧
     (commandsPOST goodKeys "production" faultItemsInsert sampleDB threeItemReq).db = sampleDB) ∧
    ((∃ msg, (handleCheckoutCommand faultSecondItem 0 sampleDB threeItemEvent).result =
        Except.error msg) ∧
     (handleCheckoutCommand faultSecondItem 0 sampleDB threeItemEvent).db = sampleDB ∧
     (commandsPOST goodKeys "production" faultSecondItem sampleDB threeItemReq).status = 500 ∧
     (commandsPOST goodKeys "production" faultSecondItem sampleDB threeItemReq).db = sampleDB) :=
  ⟨C2_tx_failure_rolls_back_and_signals_retry goodKeys "production" threeItemReq
      threeItemEvent sampleDB faultOrderInsert rfl rfl (Or.inl rfl),
   C2_tx_failure_rolls_back_and_signals_retry goodKeys "production" threeItemReq
      threeItemEvent sampleDB faultItemsInsert rfl rfl (Or.inr (Or.inl ⟨rfl, rfl⟩)),
   C2_tx_failure_rolls_back_and_signals_retry goodKeys "production" threeItemReq
      threeItemEvent sampleDB faultSecondItem rfl rfl
      (Or.inr (Or.inr ⟨rfl, rfl, 1, rfl, by decide⟩))⟩

/-- C6: when the idempotency store is unreachable, the underlying
Redis call rejects, yet isEventProcessed returns false (the event is
treated as not seen) and markEventProcessed returns normally leaving
the store unchanged; neither wrapper propagates the store failure. -/
theorem C6_store_failure_fails_open (st : DedupStore) (eventId : String) (ttl : Nat)
    (h : st.available = false) :
    redisExists st (dedupKey eventId) = Except.error "redis unreachable" ∧
    isEventProcessed st eventId = false ∧
    markEventProcessed st eventId ttl = st := by
  refine ⟨?_, ?_, ?_⟩ <;>
    simp [redisExists, isEventProcessed, markEventProcessed, redisSetex, h]

/-- Witness for C6: an unreachable store that has recorded the sample
event id still reports it as not processed and ignores marking. -/
theorem C6_witness :
    redisExists downStore (dedupKey "evt-1") = Except.error "redis unreachable" ∧
    isEventProcessed downStore "evt-1" = false ∧
    markEventProcessed downStore "evt-1" 3600 = downStore :=
  C6_store_failure_fails_open downStore "evt-1" 3600 rfl

/-- C7: processWithDeduplication short-circuits a seen event id with a
duplicate result identical for every processor (the business logic is
not re-run and the store is untouched); for an unseen id a successful
processor yields the processed result and only then is the id marked;
a failing processor has its error propagated with no idempotency
record created, so the delivery can be retried. -/
theorem C7_dedup_invocation_contract (α : Type) (st : DedupStore) (eventId : String) :
    (∀ p : Except String α, isEventProcessed st eventId = true →
      processWithDeduplication st eventId p = (Except.ok (false, none), st)) ∧
    (∀ r : α, isEventProcessed st eventId = false →
      processWithDeduplication st eventId (Except.ok r) =
        (Except.ok (true, some r), markEventProcessed st eventId DEDUP_TTL_SECONDS)) ∧
    (∀ e : String, isEventProcessed st eventId = false →
      processWithDeduplication st eventId (Except.error e : Except String α) =
        (Except.error e, st)) := by
  refine ⟨?_, ?_, ?_⟩ <;> intro x h <;> simp [processWithDeduplication, h]

/-- Witness for C7: duplicate short-circuit on a seen id, marking
after success on an unseen id, and error propagation without a record
on a failing processor. -/
theorem C7_witness :
    processWithDeduplication seenStore "evt-1" (Except.ok (7 : Nat)) =
      (Except.ok (false, none), seenStore) ∧
    processWithDeduplication emptyStore "evt-1" (Except.ok (7 : Nat)) =
      (Except.ok (true, some 7), markEventProcessed emptyStore "evt-1" DEDUP_TTL_SECONDS) ∧
    processWithDeduplication emptyStore "evt-1" (Except.error "boom" : Except String Nat) =
      (Except.error "boom", emptyStore) :=
  ⟨(C7_dedup_invocation_contract Nat seenStore "evt-1").1 _ (by decide),
   (C7_dedup_invocation_contract Nat emptyStore "evt-1").2.1 7 (by decide),
   (C7_dedup_invocation_contract Nat emptyStore "evt-1").2.2 "boom" (by decide)⟩

/-- C10: every consumer catch block answers a thrown error with 401
exactly when its message contains the signature substring and with
the retry-worthy 500 otherwise; the production error for unconfigured
signing keys does not contain the substring, so the commands consumer
answers it 500 (retried by the queue), while a processing error whose
message happens to contain the substring is misclassified as a
permanent 401. -/
theorem C10_catch_classification :
    (∀ msg : String,
      (catchStatus msg = 401 ↔ containsSignature msg = true) ∧
      (catchStatus msg = 500 ↔ containsSignature msg = false)) ∧
    containsSignature "QStash signing keys not configured" = false ∧
    (∀ (fault : TxFault) (db : DBState) (req : WebhookRequest),
      (commandsPOST noKeys "production" fault db req).status = 500) ∧
    containsSignature "Failed to verify payment signature" = true ∧
    catchStatus "Failed to verify payment signature" = 401 := by
  refine ⟨?_, by decide, ?_, by decide, by decide⟩
  · intro msg
    by_cases hc : containsSignature msg = true
    · simp [catchStatus, hc]
    · simp only [Bool.not_eq_true] at hc
      simp [catchStatus, hc]
  · intro fault db req
    have hv : (verifyQStashSignature noKeys "production" req).1 =
        Except.error "QStash signing keys not configured" := rfl
    unfold commandsPOST
    rw [hv]
    show catchStatus "QStash signing keys not configured" = 500
    decide

-- ### Further sample requests

/-- Request whose signature header is present but whose receiver
verdict is negative. -/
def badSigReq : WebhookRequest :=
  { signatureHeader := some "sig", parsedBody := some sampleEvent,
    signatureValid := false }

/-- Request with no signature header at all. -/
def noHeaderReq : WebhookRequest :=
  { signatureHeader := none, parsedBody := some sampleEvent,
    signatureValid := false }

/-- Validly signed request whose raw body is not valid JSON. -/
def malformedReq : WebhookRequest :=
  { signatureHeader := some "sig", parsedBody := none,
    signatureValid := true }

/-- Envelope whose event type no consumer topic understands. -/
def unknownTypeEvent : Envelope :=
  { eventId := "evt-unk", eventType := "notification.sms",
    correlationId := none, payload := samplePayload }

/-- Validly signed request carrying the unknown-type envelope. -/
def unknownTypeReq : WebhookRequest :=
  { signatureHeader := some "sig", parsedBody := some unknownTypeEvent,
    signatureValid := true }

/-- No run of the checkout handler emits a dead-letter publish. -/
theorem handleCheckoutCommand_trace_no_dlq (fault : TxFault) (gen : Nat)
    (db : DBState) (ev : Envelope) :
    countDlqPublishes (handleCheckoutCommand fault gen db ev).trace = 0 := by
  unfold handleCheckoutCommand
  rcases heq : txBody fault gen db ev with ⟨res, db2, pubs⟩
  have hpub : countDlqPublishes pubs = 0 := by
    apply countDlqPublishes_eq_zero
    intro a ha
    exact Or.inl (txBody_trace_shape fault gen db ev a (by rw [heq]; exact ha))
  cases res <;> simp [countDlqPublishes_append, hpub, countDlqPublishes]

/-- C3 counterexample: on the successfully processed sample checkout
command the commands consumer issues two publish calls strictly
before the transaction commit (the fire-and-forget stock updates
inside the transaction), contradicting the claim that no publish call
is ever issued while the transaction is still open. -/
theorem C3_counterexample_publish_inside_transaction :
    (commandsPOST goodKeys "production" noFault sampleDB sampleReq).status = 200 ∧
    publishCountBeforeCommit
      (commandsPOST goodKeys "production" noFault sampleDB sampleReq).trace = 2 := by
  decide

/-- C3 amended: for every successfully processed checkout command the
order-created, email-notification and audit-log publishes are issued
strictly after the transaction commit, in that order, while every
publish issued before the commit is an inventory stock-updated
publish (issued inside the open transaction). -/
theorem C3_amended_postcommit_publishes (fault : TxFault) (gen : Nat)
    (db : DBState) (ev : Envelope)
    (h : (handleCheckoutCommand fault gen db ev).result = Except.ok ()) :
    ∃ pubs, (handleCheckoutCommand fault gen db ev).trace =
        pubs ++ [Action.txCommit, Action.publish PublishedKind.orderCreated,
                 Action.publish PublishedKind.notificationEmail,
                 Action.publish PublishedKind.analyticsAudit] ∧
      ∀ a ∈ pubs, ∃ p v ps ns,
        a = Action.publish (PublishedKind.stockUpdated p v ps ns) := by
  unfold handleCheckoutCommand at h ⊢
  rcases heq : txBody fault gen db ev with ⟨res, db2, pubs⟩
  cases res with
  | error e =>
    rw [heq] at h
    exact Except.noConfusion h
  | ok o =>
    refine ⟨pubs, rfl, ?_⟩
    intro a ha
    exact txBody_trace_shape fault gen db ev a (by rw [heq]; exact ha)

/-- Witness for C3 amended: the successful sample run has the three
post-commit publishes after the commit and only stock updates before
it. -/
theorem C3_witness :
    ∃ pubs, (handleCheckoutCommand noFault 0 sampleDB sampleEvent).trace =
        pubs ++ [Action.txCommit, Action.publish PublishedKind.orderCreated,
                 Action.publish PublishedKind.notificationEmail,
                 Action.publish PublishedKind.analyticsAudit] ∧
      ∀ a ∈ pubs, ∃ p v ps ns,
        a = Action.publish (PublishedKind.stockUpdated p v ps ns) :=
  C3_amended_postcommit_publishes noFault 0 sampleDB sampleEvent rfl

/-- C4 counterexample: in the orders-service consumer a validly
signed request whose body fails JSON parsing lands in the outer catch
and is answered with the retry-worthy 500, not a non-retry 4xx. -/
theorem C4_counterexample_malformed_body_gets_retry_status :
    (ordersServicePOST noFault sampleDB malformedReq).status = 500 := by
  decide

/-- A failed receiver verdict or missing header makes the commands
route verifier throw an error whose message contains the signature
substring, so the catch block answers 401. -/
theorem verify_invalid_sig (keys : SigningKeys) (nodeEnv : String)
    (req : WebhookRequest) (hk : keysUnconfigured keys = false)
    (hs : req.signatureValid = false) :
    ∃ msg, (verifyQStashSignature keys nodeEnv req).1 = Except.error msg ∧
      catchStatus msg = 401 := by
  unfold verifyQStashSignature
  simp only [hk, Bool.false_eq_true, if_false]
  cases hh : req.signatureHeader with
  | none => exact ⟨_, rfl, by decide⟩
  | some sg =>
    simp only [hs, Bool.false_eq_true, if_false]
    exact ⟨_, rfl, by decide⟩

/-- The commands route answers 401 whenever the keys are configured
and the receiver rejects the signature. -/
theorem commandsPOST_invalid_sig (keys : SigningKeys) (nodeEnv : String)
    (fault : TxFault) (db : DBState) (req : WebhookRequest)
    (hk : keysUnconfigured keys = false) (hs : req.signatureValid = false) :
    (commandsPOST keys nodeEnv fault db req).status = 401 := by
  obtain ⟨msg, hm, hc⟩ := verify_invalid_sig keys nodeEnv req hk hs
  unfold commandsPOST
  rw [hm]
  exact hc

/-- C4 amended: a transient failure inside the transaction yields the
retry-worthy 500 in both consumers and a bad or missing signature
yields the non-retry 401 in both consumers, but a malformed body that
fails JSON parsing in the orders-service consumer is answered with
the retry-worthy 500, not with a 4xx as the claim states. -/
theorem C4_amended_retry_classification :
    (∀ (keys : SigningKeys) (nodeEnv : String) (fault : TxFault) (db : DBState)
        (req : WebhookRequest),
      keysUnconfigured keys = false → req.signatureValid = false →
      (commandsPOST keys nodeEnv fault db req).status = 401) ∧
    (∀ (keys : SigningKeys) (nodeEnv : String) (req : WebhookRequest)
        (ev : Envelope) (db : DBState) (fault : TxFault) (j : Nat),
      (verifyQStashSignature keys nodeEnv req).1 = Except.ok ev →
      ev.eventType = "command.checkout" →
      fault.orderInsertFails = false → fault.itemsInsertFails = false →
      fault.decrementFailsAt = some j → j < ev.payload.items.length →
      (commandsPOST keys nodeEnv fault db req).status = 500) ∧
    (∀ (fault : TxFault) (db : DBState) (req : WebhookRequest),
      req.signatureHeader = none → (ordersServicePOST fault db req).status = 401) ∧
    (∀ (fault : TxFault) (db : DBState) (req : WebhookRequest) (sg : String),
      req.signatureHeader = some sg → req.signatureValid = false →
      (ordersServicePOST fault db req).status = 401) ∧
    (∀ (fault : TxFault) (db : DBState) (req : WebhookRequest) (sg : String),
      req.signatureHeader = some sg → req.signatureValid = true →
      req.parsedBody = none → (ordersServicePOST fault db req).status = 500) ∧
    (∀ (fault : TxFault) (db : DBState) (req : WebhookRequest) (sg : String)
        (ev : Envelope) (j : Nat),
      req.signatureHeader = some sg → req.signatureValid = true →
      req.parsedBody = some ev → ev.eventType = "command.checkout" →
      fault.orderInsertFails = false → fault.itemsInsertFails = false →
      fault.decrementFailsAt = some j → j < ev.payload.items.length →
      (ordersServicePOST fault db req).status = 500) := by
  refine ⟨?_, ?_, ?_, ?_, ?_, ?_⟩
  · intro keys nodeEnv fault db req hk hs
    exact commandsPOST_invalid_sig keys nodeEnv fault db req hk hs
  · intro keys nodeEnv req ev db fault j hver htype h1 h2 h3 h4
    exact (commandsPOST_decrement_fault keys nodeEnv req ev db fault j
      hver htype h1 h2 h3 h4).1
  · intro fault db req hh
    unfold ordersServicePOST
    rw [hh]
  · intro fault db req sg hh hs
    unfold ordersServicePOST
    rw [hh]
    simp [hs]
  · intro fault db req sg hh hs hp
    unfold ordersServicePOST
    rw [hh]
    simp [hs, hp]
  · intro fault db req sg ev j hh hs hp htype h1 h2 h3 h4
    obtain ⟨hres, hdb⟩ := handleCheckoutCommand_decrement_fault fault 0 db ev j h1 h2 h3 h4
    unfold ordersServicePOST
    rw [hh]
    simp only [hs, if_true, hp, htype, eq_self_iff_true, hres]

/-- Witness for C4 amended: concrete requests exercising each
classification branch of both consumers. -/
theorem C4_witness :
    (commandsPOST goodKeys "production" noFault sampleDB badSigReq).status = 401 ∧
    (commandsPOST goodKeys "production" faultSecondItem sampleDB threeItemReq).status = 500 ∧
    (ordersServicePOST noFault sampleDB noHeaderReq).status = 401 ∧
    (ordersServicePOST noFault sampleDB badSigReq).status = 401 ∧
    (ordersServicePOST noFault sampleDB malformedReq).status = 500 ∧
    (ordersServicePOST faultSecondItem sampleDB threeItemReq).status = 500 :=
  ⟨C4_amended_retry_classification.1 goodKeys "production" noFault sampleDB badSigReq rfl rfl,
   C4_amended_retry_classification.2.1 goodKeys "production" threeItemReq threeItemEvent
     sampleDB faultSecondItem 1 rfl rfl rfl rfl rfl (by decide),
   C4_amended_retry_classification.2.2.1 noFault sampleDB noHeaderReq rfl,
   C4_amended_retry_classification.2.2.2.1 noFault sampleDB badSigReq "sig" rfl rfl,
   C4_amended_retry_classification.2.2.2.2.1 noFault sampleDB malformedReq "sig" rfl rfl rfl,
   C4_amended_retry_classification.2.2.2.2.2 faultSecondItem sampleDB threeItemReq "sig"
     threeItemEvent 1 rfl rfl rfl rfl rfl rfl rfl (by decide)⟩

/-- C5: with unconfigured signing keys the verifier throws the
configuration error whenever the process is not in the explicitly
flagged development mode (fail closed in production), accepts the
parsed body without any signature check only in development mode, and
emits the loud skip warning log in every unconfigured invocation. -/
theorem C5_unconfigured_keys_fail_closed (keys : SigningKeys) (nodeEnv : String)
    (req : WebhookRequest) (ev : Envelope)
    (hk : keysUnconfigured keys = true) :
    (nodeEnv ≠ "development" →
      (verifyQStashSignature keys nodeEnv req).1 =
        Except.error "QStash signing keys not configured") ∧
    (nodeEnv = "development" → req.parsedBody = some ev →
      (verifyQStashSignature keys nodeEnv req).1 = Except.ok ev) ∧
    skipWarnLog ∈ (verifyQStashSignature keys nodeEnv req).2 := by
  unfold verifyQStashSignature
  simp only [hk, if_true]
  refine ⟨?_, ?_, ?_⟩
  · intro hne
    simp [hne]
  · intro he hp
    simp [he, hp]
  · by_cases he : nodeEnv = "development"
    · simp only [he, if_pos rfl]
      cases hp : req.parsedBody <;> simp
    · simp [he]

/-- Witness for C5: in production the unconfigured verifier throws; in
development it returns the sample event unverified and logs the
skip. -/
theorem C5_witness :
    (verifyQStashSignature noKeys "production" sampleReq).1 =
      Except.error "QStash signing keys not configured" ∧
    (verifyQStashSignature noKeys "development" sampleReq).1 =
      Except.ok sampleEvent ∧
    skipWarnLog ∈ (verifyQStashSignature noKeys "development" sampleReq).2 :=
  ⟨(C5_unconfigured_keys_fail_closed noKeys "production" sampleReq sampleEvent rfl).1
      (by decide),
   (C5_unconfigured_keys_fail_closed noKeys "development" sampleReq sampleEvent rfl).2.1
      rfl rfl,
   (C5_unconfigured_keys_fail_closed noKeys "development" sampleReq sampleEvent rfl).2.2⟩

/-- C8 counterexample: the notifications consumer answers a verified
event of an unknown type with the retry-worthy 500 (the dispatch
throws and the catch block classifies the message as a processing
failure), so an unknown event type is not always acknowledged with a
non-retry response. -/
theorem C8_counterexample_unknown_type_retried :
    (notificationsPOST goodKeys "production" emptyStore unknownTypeReq
      (Except.ok ())).1 = 500 := by
  decide

/-- C8 amended: the commands consumer rejects a verified unknown
event type with the non-retry 400 without touching the database, and
the orders-service consumer acknowledges it 200 as a no-op; the
notifications consumer however throws on an unknown type and answers
the retry-worthy 500, leaving the idempotency store unchanged. -/
theorem C8_amended_unknown_type_handling :
    (∀ (keys : SigningKeys) (nodeEnv : String) (fault : TxFault) (db : DBState)
        (req : WebhookRequest) (ev : Envelope),
      (verifyQStashSignature keys nodeEnv req).1 = Except.ok ev →
      ev.eventType ≠ "command.checkout" →
      (commandsPOST keys nodeEnv fault db req).status = 400 ∧
      (commandsPOST keys nodeEnv fault db req).db = db) ∧
    (∀ (fault : TxFault) (db : DBState) (req : WebhookRequest) (sg : String)
        (ev : Envelope),
      req.signatureHeader = some sg → req.signatureValid = true →
      req.parsedBody = some ev → ev.eventType ≠ "command.checkout" →
      (ordersServicePOST fault db req).status = 200 ∧
      (ordersServicePOST fault db req).db = db) ∧
    (∀ (keys : SigningKeys) (nodeEnv : String) (st : DedupStore)
        (req : WebhookRequest) (ev : Envelope) (out : Except String Unit),
      (verifyQStashSignature keys nodeEnv req).1 = Except.ok ev →
      ev.eventType ≠ "notification.email" →
      isEventProcessed st ev.eventId = false →
      containsSignature ("Unknown event type: " ++ ev.eventType) = false →
      (notificationsPOST keys nodeEnv st req out).1 = 500 ∧
      (notificationsPOST keys nodeEnv st req out).2 = st) := by
  refine ⟨?_, ?_, ?_⟩
  · intro keys nodeEnv fault db req ev hver htype
    unfold commandsPOST
    rw [hver]
    simp [htype]
  · intro fault db req sg ev hh hs hp htype
    unfold ordersServicePOST
    rw [hh]
    simp only [hs, if_true, hp, htype, if_false]
    by_cases ho : ev.eventType.startsWith "order." <;> simp [ho]
  · intro keys nodeEnv st req ev out hver htype hseen hcs
    unfold notificationsPOST
    rw [hver]
    simp only [if_neg htype]
    unfold processWithDeduplication
    simp only [hseen, Bool.false_eq_true, if_false]
    simp [catchStatus, hcs]

/-- Witness for C8 amended: the unknown-type sample envelope gets 400
from the commands consumer, 200 from the orders-service consumer, and
500 from the notifications consumer. -/
theorem C8_witness :
    ((commandsPOST goodKeys "production" noFault sampleDB unknownTypeReq).status = 400 ∧
     (commandsPOST goodKeys "production" noFault sampleDB unknownTypeReq).db = sampleDB) ∧
    ((ordersServicePOST noFault sampleDB unknownTypeReq).status = 200 ∧
     (ordersServicePOST noFault sampleDB unknownTypeReq).db = sampleDB) ∧
    ((notificationsPOST goodKeys "production" seenStore unknownTypeReq
        (Except.ok ())).1 = 500 ∧
     (notificationsPOST goodKeys "production" seenStore unknownTypeReq
        (Except.ok ())).2 = seenStore) :=
  ⟨C8_amended_unknown_type_handling.1 goodKeys "production" noFault sampleDB
      unknownTypeReq unknownTypeEvent rfl (by decide),
   C8_amended_unknown_type_handling.2.1 noFault sampleDB unknownTypeReq "sig"
      unknownTypeEvent rfl rfl rfl (by decide),
   C8_amended_unknown_type_handling.2.2 goodKeys "production" seenStore
      unknownTypeReq unknownTypeEvent (Except.ok ()) rfl (by decide) (by decide)
      (by decide)⟩

/-- C9 counterexample: a checkout command whose stock decrement fails
inside the transaction is answered by the commands consumer with the
retry-worthy 500 and zero re-emissions to the analytics target — no
dead-letter publish occurs on this route. -/
theorem C9_counterexample_no_dead_letter_in_commands_consumer :
    (commandsPOST goodKeys "production" faultSecondItem sampleDB threeItemReq).status = 500 ∧
    countDlqPublishes (commandsPOST goodKeys "production" faultSecondItem
      sampleDB threeItemReq).trace = 0 := by
  decide

/-- C9 amended: only the legacy Kafka typed consumer implements the
dead-letter path; with the dead-letter queue enabled, a checkout
command whose stock decrement fails inside the transaction is rolled
back and re-emitted exactly once to the analytics topic carrying the
original event intact, while the commands webhook consumer rolls the
same failure back, answers the retry-worthy 500 and re-emits
nothing. -/
theorem C9_amended_dead_letter_only_in_legacy_consumer
    (cfg : ConsumerConfigModel) (fault : TxFault) (db : DBState)
    (topic et : String) (ev : Envelope) (j : Nat)
    (hdlq : cfg.enableDLQ = true) (hfil : cfg.eventTypes.contains et = true)
    (h1 : fault.orderInsertFails = false) (h2 : fault.itemsInsertFails = false)
    (h3 : fault.decrementFailsAt = some j) (h4 : j < ev.payload.items.length) :
    (typedConsumerEachMessage cfg fault db topic (some et) (some ev)).1 = db ∧
    countDlqPublishes
      (typedConsumerEachMessage cfg fault db topic (some et) (some ev)).2 = 1 ∧
    sendToDLQ topic et ev "stock decrement failed" 0 ∈
      (typedConsumerEachMessage cfg fault db topic (some et) (some ev)).2 ∧
    (∀ (keys : SigningKeys) (nodeEnv : String) (req : WebhookRequest),
      (verifyQStashSignature keys nodeEnv req).1 = Except.ok ev →
      ev.eventType = "command.checkout" →
      (commandsPOST keys nodeEnv fault db req).status = 500 ∧
      (commandsPOST keys nodeEnv fault db req).db = db ∧
      countDlqPublishes (commandsPOST keys nodeEnv fault db req).trace = 0) := by
  obtain ⟨hres, hdb⟩ := handleCheckoutCommand_decrement_fault fault 0 db ev j h1 h2 h3 h4
  have hnod := handleCheckoutCommand_trace_no_dlq fault 0 db ev
  have hmain : typedConsumerEachMessage cfg fault db topic (some et) (some ev) =
      ((handleCheckoutCommand fault 0 db ev).db,
       (handleCheckoutCommand fault 0 db ev).trace ++
         [sendToDLQ topic et ev "stock decrement failed" 0]) := by
    unfold typedConsumerEachMessage
    simp only [hfil, if_true, hres, hdlq]
  refine ⟨?_, ?_, ?_, ?_⟩
  · rw [hmain]
    exact hdb
  · rw [hmain]
    simp [countDlqPublishes_append, hnod, countDlqPublishes, sendToDLQ]
  · rw [hmain]
    simp
  · intro keys nodeEnv req hver htype
    obtain ⟨hst, hdb2⟩ := commandsPOST_decrement_fault keys nodeEnv req ev db fault j
      hver htype h1 h2 h3 h4
    refine ⟨hst, hdb2, ?_⟩
    unfold commandsPOST
    rw [hver]
    simp only [htype, eq_self_iff_true, if_true, hres]
    exact hnod
  
/-- Witness for C10: the unconfigured-keys error is answered 500 by
the commands consumer in production, and a processing error whose
message mentions the signature substring is classified 401. -/
theorem C10_witness :
    catchStatus "QStash signing keys not configured" = 500 ∧
    (commandsPOST noKeys "production" noFault sampleDB sampleReq).status = 500 ∧
    catchStatus "Failed to verify payment signature" = 401 :=
  ⟨(C10_catch_classification.1 "QStash signing keys not configured").2.mpr
      C10_catch_classification.2.1,
   C10_catch_classification.2.2.1 noFault sampleDB sampleReq,
   C10_catch_classification.2.2.2.2⟩

/-- Witness for C9 amended: the legacy orders-service consumer with
the dead-letter queue enabled re-emits the failing three-item
checkout once as an analytics dead-letter event with the original
envelope intact, while the commands consumer answers the same failure
with 500 and no dead-letter publish. -/
theorem C9_witness :
    (typedConsumerEachMessage legacyOrdersConfig faultSecondItem sampleDB
      "ecom.commands" (some "command.checkout") (some threeItemEvent)).1 = sampleDB ∧
    countDlqPublishes (typedConsumerEachMessage legacyOrdersConfig faultSecondItem
      sampleDB "ecom.commands" (some "command.checkout") (some threeItemEvent)).2 = 1 ∧
    sendToDLQ "ecom.commands" "command.checkout" threeItemEvent
      "stock decrement failed" 0 ∈
      (typedConsumerEachMessage legacyOrdersConfig faultSecondItem sampleDB
        "ecom.commands" (some "command.checkout") (some threeItemEvent)).2 ∧
    (commandsPOST goodKeys "production" faultSecondItem sampleDB threeItemReq).status = 500 ∧
    (commandsPOST goodKeys "production" faultSecondItem sampleDB threeItemReq).db = sampleDB ∧
    countDlqPublishes (commandsPOST goodKeys "production" faultSecondItem sampleDB
      threeItemReq).trace = 0 :=
  have h := C9_amended_dead_letter_only_in_legacy_consumer legacyOrdersConfig
    faultSecondItem sampleDB "ecom.commands" "command.checkout" threeItemEvent 1
    rfl (by decide) rfl rfl rfl (by decide)
  have hq := h.2.2.2 goodKeys "production" threeItemReq rfl rfl
  ⟨h.1, h.2.1, h.2.2.1, hq.1, hq.2.1, hq.2.2⟩

end Pipeline
